import Mathlib

/-!
Verification of the VOXNOT orchestration layer (sources/VOXNOT.py):
dataset-preparation cache, unified dataset composition, training
orchestration, model-registry construction and batched conversion.

The Python code is shallowly embedded: the filesystem is an explicit value
(a listing of named nodes), the external collaborators (feature-extraction
pipeline, model adapter) are parameters, and each method becomes a pure
Lean function returning the events it performs together with its result.
-/

set_option autoImplicit false

/-- Split a character list at the LAST occurrence of `c`.
Returns `some (pre, post)` with the original list equal to
`pre ++ c :: post` and `post` free of `c`; `none` when `c` does not occur. -/
def splitAtLast (c : Char) : List Char → Option (List Char × List Char)
  | [] => none
  | a :: rest =>
    match splitAtLast c rest with
    | some (pre, post) => some (a :: pre, post)
    | none => if a = c then some ([], rest) else none

/-- Python `os.path.basename`: the part of the path after the last slash. -/
def basename (s : String) : String :=
  match splitAtLast '/' s.data with
  | none => s
  | some (_, post) => String.mk post

/-- The extension component of Python `os.path.splitext`: the suffix of the
basename starting at its last dot, unless every character of the basename
before that dot is itself a dot (then the extension is empty). -/
def extOf (s : String) : String :=
  match splitAtLast '.' (basename s).data with
  | none => ""
  | some (pre, post) =>
    if pre.any (fun ch => ch ≠ '.') then String.mk ('.' :: post) else ""

/-- Python `os.path.join` for a directory and a relative entry name. -/
def joinPath (d n : String) : String := d ++ "/" ++ n

/-- A filesystem node as seen in a directory listing: a regular file
(carrying the abstract sequence of dataset records serialized in it, used
only when the file is a dataset shard) or a subdirectory with its own
children. -/
inductive FSNode where
  | file (name : String) (records : List Nat)
  | dir (name : String) (children : List FSNode)

/-- The entry name of a node. -/
def FSNode.name : FSNode → String
  | .file n _ => n
  | .dir n _ => n

/-- Python `os.path.isfile` for a listed node. -/
def FSNode.isFile : FSNode → Bool
  | .file _ _ => true
  | .dir _ _ => false

/-- The records serialized in a node (empty for a directory). -/
def recordsOf : FSNode → List Nat
  | .file _ r => r
  | .dir _ _ => []

/-- The shard test of `_prepare_dataset`: the joined path is a regular file
and its `os.path.splitext` extension is the reserved ".pt". -/
def isShardEntry (dataset_dir : String) (e : FSNode) : Bool :=
  e.isFile && (extOf (joinPath dataset_dir e.name) == ".pt")

/-- The shard record-lists discovered by scanning a listing in order:
one `VOXNOTDataset` per regular ".pt" file, in listing order. -/
def scanShards (dataset_dir : String) (l : List FSNode) : List (List Nat) :=
  (l.filter (fun e => isShardEntry dataset_dir e)).map recordsOf

/-- Events logged by `_clear_folder`: a successful per-entry deletion
(the `print` after `os.remove`/`os.rmdir`) or a caught per-entry
exception (the `print(e)` in the `except` arm). -/
inductive CEv where
  | cleared (path : String)
  | caught (path : String)
deriving DecidableEq

mutual

/-- `VOXNOT._clear_folder` over the children of `dirPath`: each entry is
deleted inside a per-entry try/except, so a failing deletion is logged and
skipped and the loop continues; returns the surviving nodes and the event
log. `fails p = true` models the deletion of path `p` raising. -/
def _clear_folder (fails : String → Bool) (dirPath : String) :
    List FSNode → List FSNode × List CEv
  | [] => ([], [])
  | e :: rest =>
    let r1 := clearEntry fails dirPath e
    let r2 := _clear_folder fails dirPath rest
    (r1.1 ++ r2.1, r1.2 ++ r2.2)

/-- One iteration of the `_clear_folder` loop body (the try/except around a
single entry): a regular file is removed with `os.remove`; a directory is
recursively cleared and then removed with `os.rmdir`, which fails when
children survive or when the deletion itself raises. -/
def clearEntry (fails : String → Bool) (dirPath : String) :
    FSNode → List FSNode × List CEv
  | .file n recs =>
    if fails (joinPath dirPath n) then
      ([.file n recs], [.caught (joinPath dirPath n)])
    else
      ([], [.cleared (joinPath dirPath n)])
  | .dir n cs =>
    let r := _clear_folder fails (joinPath dirPath n) cs
    if r.1.isEmpty && !(fails (joinPath dirPath n)) then
      ([], r.2 ++ [.cleared (joinPath dirPath n)])
    else
      ([.dir n r.1], r.2 ++ [.caught (joinPath dirPath n)])

end

/-- Python-level errors surfaced by the embedded methods. -/
inductive PyErr where
  | keyError
  | fileNotFoundError
  | pipelineFailure
  | trainingFailure
deriving DecidableEq

/-- Events performed by `_prepare_dataset`, in order: the
`VOXNOT._clear_folder(dataset_dir)` call, the `os.mkdir` call, the
`VOXNOTDatasetPreparationTools(...).prepare()` extraction run, and the
`VOXNOT.clear_mem()` reclamation call. -/
inductive PEv where
  | clearFolderRun
  | mkdirRun
  | pipelineRun
  | clearMemRun
deriving DecidableEq

/-- Outcome of one `_prepare_dataset` call on an existing cache directory:
the ordered events performed, the listing of the cache directory
afterwards, and the returned `ConcatDataset` (as the list of shard
record-lists, in discovery order) or the propagated error. -/
structure PrepOut where
  events : List PEv
  dirAfter : List FSNode
  result : Except PyErr (List (List Nat))

/-- `VOXNOT._prepare_dataset` given that `os.listdir(dataset_dir)`
succeeded with `listing`: scan for an existing ".pt" shard; if
`delete_last_prepared_data` or no shard is found, clear the directory
(best-effort, `fails` models per-entry deletion failures) and run the
external extraction pipeline, whose outcome `pipeline` is the new files it
writes or a raised error that propagates (skipping the `clear_mem` call);
finally re-scan the directory and return the concatenation of all shards. -/
def _prepare_dataset (delete_last_prepared_data : Bool) (fails : String → Bool)
    (dataset_dir : String) (listing : List FSNode)
    (pipeline : Except Unit (List FSNode)) : PrepOut :=
  let exists_prepared_datasets := listing.any (fun e => isShardEntry dataset_dir e)
  if delete_last_prepared_data || !exists_prepared_datasets then
    let survivors := (_clear_folder fails dataset_dir listing).1
    match pipeline with
    | .error _ =>
      { events := [.clearFolderRun, .pipelineRun],
        dirAfter := survivors,
        result := .error .pipelineFailure }
    | .ok written =>
      { events := [.clearFolderRun, .pipelineRun, .clearMemRun],
        dirAfter := survivors ++ written,
        result := .ok (scanShards dataset_dir (survivors ++ written)) }
  else
    { events := [.clearMemRun],
      dirAfter := listing,
      result := .ok (scanShards dataset_dir listing) }

/-- Entry behavior of `VOXNOT._prepare_dataset` including the initial
`os.listdir(dataset_dir)` at line 80: when the cache directory does not
exist (`none`), that call raises `FileNotFoundError` before the
`os.mkdir(dataset_dir)` branch at line 92 can ever run. -/
def _prepare_dataset_entry (delete_last_prepared_data : Bool)
    (fails : String → Bool) (dataset_dir : String)
    (dirState : Option (List FSNode))
    (pipeline : Except Unit (List FSNode)) : Except PyErr PrepOut :=
  match dirState with
  | none => .error .fileNotFoundError
  | some listing =>
    .ok (_prepare_dataset delete_last_prepared_data fails dataset_dir listing pipeline)

/-- Total number of indexable entries of a `torch.utils.data.ConcatDataset`
over the given member datasets: the sum of the member lengths. -/
def concatLen (dss : List (List Nat)) : Nat := (dss.map List.length).sum

/-- Global-index lookup of `ConcatDataset`: index `i` is served by the
first member whose cumulative size exceeds `i`, at the local offset left
after subtracting the preceding members. -/
def concatGet (dss : List (List Nat)) (i : Nat) : Option Nat :=
  match dss with
  | [] => none
  | s :: rest => if i < s.length then s[i]? else concatGet rest (i - s.length)

/-- The (member index, local offset) pair that `ConcatDataset` resolves a
global index to. -/
def concatLocate (dss : List (List Nat)) (i : Nat) : Option (Nat × Nat) :=
  match dss with
  | [] => none
  | s :: rest =>
    if i < s.length then some (0, i)
    else (concatLocate rest (i - s.length)).map (fun p => (p.1 + 1, p.2))

/-- Events performed by `VOXNOT.train` after both dataset preparations
succeed: the `set_train_params` call, the blocking `model_instance.train()`
call, and the final `shutil.copy2(model_path, model_dest_path)`. -/
inductive TEv where
  | setParamsRun
  | modelTrainRun
  | copyFile (src dest : String)
deriving DecidableEq

/-- Whether a training event is the checkpoint copy. -/
def TEv.isCopy : TEv → Bool
  | .copyFile _ _ => true
  | _ => false

/-- Extract the returned `ConcatDataset` of a preparation call, propagating
either the entry error or the in-call error. -/
def prepResult (r : Except PyErr PrepOut) : Except PyErr (List (List Nat)) :=
  match r with
  | .error e => .error e
  | .ok o => o.result

/-- `VOXNOT.train`: prepare the source corpus into
`temp_dir/input_ds_X` and the target corpus into `temp_dir/input_ds_Y`
(any preparation error aborts the run), configure the model and run its
blocking `train()` (`trainOutcome` models its success or raised failure),
then copy the best checkpoint reported by the model (`best_model_path`)
to `output_dir/training_name.pt`. Returns the post-preparation events in
order. -/
def train (delete_last_prepared_data : Bool) (fails : String → Bool)
    (temp_dir output_dir training_name : String)
    (dirX dirY : Option (List FSNode))
    (pipeX pipeY : Except Unit (List FSNode))
    (trainOutcome : Except Unit Unit) (best_model_path : String) :
    Except PyErr (List TEv) :=
  match prepResult (_prepare_dataset_entry delete_last_prepared_data fails
      (joinPath temp_dir "input_ds_X") dirX pipeX) with
  | .error e => .error e
  | .ok _dsX =>
    match prepResult (_prepare_dataset_entry delete_last_prepared_data fails
        (joinPath temp_dir "input_ds_Y") dirY pipeY) with
    | .error e => .error e
    | .ok _dsY =>
      match trainOutcome with
      | .error _ => .error .trainingFailure
      | .ok _ =>
        .ok [.setParamsRun, .modelTrainRun,
             .copyFile best_model_path (joinPath output_dir (training_name ++ ".pt"))]

/-- What the filesystem answers about one caller-supplied path: whether a
node exists there at all, whether `os.path.isdir` holds, and the directory
listing used when it does. `os.path.isdir` returns false (it does not
raise) on a nonexistent path, so `existsFS = false` forces
`isDirFS = false`, which is all `_get_files` ever consults. -/
structure PathInfo where
  existsFS : Bool
  isDirFS : Bool
  listing : List FSNode

/-- `VOXNOT._get_files`: a directory resolves to the regular files directly
inside it, joined onto the directory path in listing order; anything else
(a regular file, or a path that does not exist — no existence check is
performed) resolves to the one-element list holding the path itself. -/
def _get_files (path : String) (info : PathInfo) : List String :=
  if info.isDirFS then
    (info.listing.filter (fun e => e.isFile)).map (fun e => joinPath path e.name)
  else
    [path]

/-- One output write performed by `make_conversation`: the model file whose
weights were loaded, the query file converted, and the path the rendered
audio was written to. -/
structure ConvWrite where
  modelFile : String
  queryFile : String
  outFile : String
deriving DecidableEq

/-- `VOXNOT.make_conversation`: resolve the query and model paths to file
lists, then for every model (outer loop) and every query (inner loop)
convert and write one artifact; the output path is `out_path` itself when
`out_path` is not a directory, else
`out_path/{basename query}_{basename model}.wav`. Returns the ordered list
of writes. -/
def make_conversation (query_path trained_model_path out_path : String)
    (queryInfo modelInfo : PathInfo) (outIsDir : Bool) : List ConvWrite :=
  (_get_files trained_model_path modelInfo).flatMap (fun model =>
    (_get_files query_path queryInfo).map (fun q =>
      { modelFile := model
        queryFile := q
        outFile :=
          if outIsDir = false then out_path
          else joinPath out_path (basename q ++ "_" ++ basename model ++ ".wav") }))

/-- Events performed during `VOXNOT.__init__`: constructing the resolved
model class (the only call that may do any filesystem or device work). -/
inductive InitEv where
  | constructModel (className : String)
deriving DecidableEq

/-- The single model object held by the orchestrator: the resolved class
name together with the constructor arguments it received. -/
structure ModelInstance where
  className : String
  deviceId : Nat
  hyperParamsId : Nat
  prodMode : Bool
deriving DecidableEq

/-- The constructed orchestrator state: the stored device and the single
model instance created at construction. -/
structure Orchestrator where
  deviceId : Nat
  model_instance : ModelInstance
deriving DecidableEq

/-- `VOXNOT.__init__`: store the device, look the class name up in the
module global symbol table (`globals()[model_class_name]`, a `KeyError`
when absent), and construct the single model instance once. Returns the
I/O-capable events performed together with the constructed state or the
lookup error. -/
def voxnot_init (globalsKeys : List String) (device : Nat)
    (model_class_name : String) (hyper_params : Nat) (prod_mode : Bool) :
    List InitEv × Except PyErr Orchestrator :=
  if model_class_name ∈ globalsKeys then
    ([.constructModel model_class_name],
     .ok { deviceId := device
           model_instance :=
             { className := model_class_name
               deviceId := device
               hyperParamsId := hyper_params
               prodMode := prod_mode } })
  else
    ([], .error .keyError)

/-! ## Helper lemmas -/

theorem concatLen_nil : concatLen [] = 0 := rfl

theorem concatLen_cons (s : List Nat) (rest : List (List Nat)) :
    concatLen (s :: rest) = s.length + concatLen rest := by
  simp [concatLen]

/-- Every global index below the total length resolves to a valid
(member, offset) pair, the member lookup agrees with it, and the global
index is the cumulative length of the earlier members plus the offset. -/
theorem concatLocate_correct (dss : List (List Nat)) (i : Nat)
    (h : i < concatLen dss) :
    ∃ j o s, concatLocate dss i = some (j, o) ∧ dss[j]? = some s ∧
      o < s.length ∧ concatGet dss i = s[o]? ∧
      i = concatLen (dss.take j) + o := by
  induction dss generalizing i with
  | nil => simp [concatLen] at h
  | cons s rest ih =>
    by_cases hi : i < s.length
    · exact ⟨0, i, s, by simp [concatLocate, hi], by simp, hi,
        by simp [concatGet, hi], by simp [concatLen]⟩
    · have hlen : s.length ≤ i := Nat.le_of_not_lt hi
      have h' : i - s.length < concatLen rest := by
        rw [concatLen_cons] at h
        omega
      obtain ⟨j, o, t, hl, hg, ho, hget, hsum⟩ := ih (i - s.length) h'
      refine ⟨j + 1, o, t, ?_, ?_, ho, ?_, ?_⟩
      · simp [concatLocate, hi, hl]
      · simpa using hg
      · simp [concatGet, hi, hget]
      · simp only [List.take_succ_cons, concatLen_cons]
        omega

/-- `concatGet` is lookup in the flattening of the members. -/
theorem concatGet_eq_flatten (dss : List (List Nat)) (i : Nat) :
    concatGet dss i = dss.flatten[i]? := by
  induction dss generalizing i with
  | nil => simp [concatGet]
  | cons s rest ih =>
    by_cases hi : i < s.length
    · simp [concatGet, hi, List.getElem?_append_left hi]
    · have hlen : s.length ≤ i := Nat.le_of_not_lt hi
      simp [concatGet, hi, ih, List.getElem?_append_right hlen]

/-- The shard scan distributes over listing concatenation. -/
theorem scanShards_append (dataset_dir : String) (l1 l2 : List FSNode) :
    scanShards dataset_dir (l1 ++ l2)
      = scanShards dataset_dir l1 ++ scanShards dataset_dir l2 := by
  simp [scanShards]

theorem sdata_append (a b : String) : (a ++ b).data = a.data ++ b.data := rfl

/-- Appending fixed strings on the left and right is injective. -/
theorem surround_injective (a b : String) :
    Function.Injective (fun s : String => a ++ s ++ b) := by
  intro s t h
  apply String.ext
  have hd : a.data ++ s.data ++ b.data = a.data ++ t.data ++ b.data := by
    have := congrArg String.data h
    simpa [sdata_append] using this
  have hd2 : a.data ++ (s.data ++ b.data) = a.data ++ (t.data ++ b.data) := by
    rw [← List.append_assoc, ← List.append_assoc]
    exact hd
  exact List.append_cancel_right (List.append_cancel_left hd2)

/-- Flat-mapping every element to the same singleton yields a constant
list of the same length. -/
theorem flatMap_const_singleton {α β : Type*} (l : List α) (c : β) :
    (l.flatMap fun _ => [c]) = List.replicate l.length c := by
  induction l with
  | nil => rfl
  | cons a as ih => simp [List.flatMap_cons, ih, List.replicate_succ]

/-- The length of a two-level model-by-query traversal is the product of
the two list lengths. -/
theorem length_flatMap_map {α β γ : Type*} (M : List α) (Q : List β)
    (f : α → β → γ) :
    (M.flatMap fun m => Q.map (f m)).length = M.length * Q.length := by
  induction M with
  | nil => simp
  | cons m ms ih =>
    simp only [List.flatMap_cons, List.length_append, List.length_map, ih,
      List.length_cons]
    ring

/-- Mapping a function over a two-level traversal maps it pointwise. -/
theorem map_flatMap_map {α β γ δ : Type*} (M : List α) (Q : List β)
    (f : α → β → γ) (g : γ → δ) :
    ((M.flatMap fun m => Q.map (f m)).map g)
      = M.flatMap fun m => Q.map (fun q => g (f m q)) := by
  induction M with
  | nil => rfl
  | cons m ms ih =>
    simp [List.flatMap_cons, List.map_append, List.map_map, ih, Function.comp]

/-! ## Claim theorems -/

/-- C1: the clear-and-rebuild branch of `_prepare_dataset` is taken exactly
when `delete_last_prepared_data` is true or no regular ".pt" shard file is
listed in the cache directory; when a shard is present and the flag is
false, the call performs only the final reclamation and re-scan, leaving
the directory untouched and returning the shards already on disk; when the
flag is true, it always clears the directory and runs the extraction
pipeline, regardless of prior cache contents. -/
theorem C1_cache_branch (delete_last_prepared_data : Bool)
    (fails : String → Bool) (dataset_dir : String) (listing : List FSNode)
    (pipeline : Except Unit (List FSNode)) :
    (PEv.pipelineRun ∈ (_prepare_dataset delete_last_prepared_data fails
          dataset_dir listing pipeline).events
        ↔ (delete_last_prepared_data = true
            ∨ listing.any (fun e => isShardEntry dataset_dir e) = false))
    ∧ (delete_last_prepared_data = false →
        listing.any (fun e => isShardEntry dataset_dir e) = true →
        _prepare_dataset delete_last_prepared_data fails dataset_dir listing pipeline
          = { events := [PEv.clearMemRun], dirAfter := listing,
              result := Except.ok (scanShards dataset_dir listing) })
    ∧ (delete_last_prepared_data = true →
        PEv.clearFolderRun ∈ (_prepare_dataset delete_last_prepared_data fails
            dataset_dir listing pipeline).events
        ∧ PEv.pipelineRun ∈ (_prepare_dataset delete_last_prepared_data fails
            dataset_dir listing pipeline).events) := by
  cases delete_last_prepared_data <;>
    cases hany : listing.any (fun e => isShardEntry dataset_dir e) <;>
      cases pipeline <;>
        simp [_prepare_dataset, hany]

/-- Witness for C1: a cache directory holding the shard a.pt and a stray
text file, prepared with the flag false, is only re-scanned. -/
theorem C1_witness :
    _prepare_dataset false (fun _ => false) "ds"
        [FSNode.file "a.pt" [1, 2], FSNode.file "notes.txt" [9]] (Except.ok [])
      = { events := [PEv.clearMemRun],
          dirAfter := [FSNode.file "a.pt" [1, 2], FSNode.file "notes.txt" [9]],
          result := Except.ok [[1, 2]] } :=
  (C1_cache_branch false (fun _ => false) "ds"
    [FSNode.file "a.pt" [1, 2], FSNode.file "notes.txt" [9]]
    (Except.ok [])).2.1 rfl rfl

/-- C4: the code contradicts the claim: when the cache directory does not
exist, the initial `os.listdir(dataset_dir)` at line 80 raises
`FileNotFoundError` instead of treating the absence as an empty cache, so
the `os.mkdir(dataset_dir)` branch at line 92 is unreachable and the
extraction pipeline never runs. -/
theorem C4_missing_dir_raises :
    _prepare_dataset_entry false (fun _ => false) "tmp/input_ds_X" none (Except.ok [])
      = Except.error PyErr.fileNotFoundError := rfl

/-- C5: the dataset returned by a successful `_prepare_dataset` call is the
concatenation of exactly the ".pt" regular files of the resulting listing
in discovery order: its index space has the summed size, every global
index resolves through `concatLocate` to the correct member and offset
(the lookup agreeing with the flattened sequence), and entries that are
not ".pt" regular files contribute nothing to the scan. -/
theorem C5_unified_dataset (delete_last_prepared_data : Bool)
    (fails : String → Bool) (dataset_dir : String) (listing : List FSNode)
    (pipeline : Except Unit (List FSNode)) (ds : List (List Nat))
    (hok : (_prepare_dataset delete_last_prepared_data fails dataset_dir
        listing pipeline).result = Except.ok ds) :
    ds = scanShards dataset_dir (_prepare_dataset delete_last_prepared_data
        fails dataset_dir listing pipeline).dirAfter
    ∧ concatLen ds = (ds.map List.length).sum
    ∧ (∀ i, i < concatLen ds →
        ∃ j o s, concatLocate ds i = some (j, o) ∧ ds[j]? = some s ∧
          o < s.length ∧ concatGet ds i = s[o]? ∧
          concatGet ds i = ds.flatten[i]? ∧
          i = concatLen (ds.take j) + o)
    ∧ (∀ l1 l2 e, isShardEntry dataset_dir e = false →
        scanShards dataset_dir (l1 ++ e :: l2)
          = scanShards dataset_dir (l1 ++ l2)) := by
  refine ⟨?_, rfl, ?_, ?_⟩
  · cases delete_last_prepared_data <;>
      cases hany : listing.any (fun e => isShardEntry dataset_dir e) <;>
        cases pipeline <;>
          simp [_prepare_dataset, hany] at hok ⊢ <;>
          exact hok.symm
  · intro i hi
    obtain ⟨j, o, s, h1, h2, h3, h4, h5⟩ := concatLocate_correct ds i hi
    exact ⟨j, o, s, h1, h2, h3, h4, concatGet_eq_flatten ds i, h5⟩
  · intro l1 l2 e he
    simp [scanShards, List.filter_append, List.filter_cons, he]

/-- Witness for C5: a cache holding shards a.pt (2 records) and b.pt
(1 record) besides a subdirectory and a text file; global index 2 of the
3-entry unified dataset resolves to offset 0 of the second shard. -/
theorem C5_witness :
    ∃ j o s, concatLocate [[5, 6], [7]] 2 = some (j, o) ∧
      ([[5, 6], [7]] : List (List Nat))[j]? = some s ∧ o < s.length ∧
      concatGet [[5, 6], [7]] 2 = s[o]? ∧
      concatGet [[5, 6], [7]] 2 = ([[5, 6], [7]] : List (List Nat)).flatten[2]? ∧
      2 = concatLen (([[5, 6], [7]] : List (List Nat)).take j) + o :=
  (C5_unified_dataset false (fun _ => false) "ds"
    [FSNode.file "a.pt" [5, 6], FSNode.dir "sub" [],
     FSNode.file "skip.txt" [9], FSNode.file "b.pt" [7]]
    (Except.ok []) [[5, 6], [7]] rfl).2.2.1 2 (by decide)

/-- C8 counterexample: with the flag true, an empty cache directory and an
extraction pipeline that raises, `_prepare_dataset` propagates the error
without ever invoking `clear_mem` — line 97 is not in a finally block, so
the claimed reclamation-on-failure does not happen. -/
theorem C8_counterexample :
    PEv.clearMemRun ∉ (_prepare_dataset true (fun _ => false) "ds" []
        (Except.error ())).events
    ∧ (_prepare_dataset true (fun _ => false) "ds" [] (Except.error ())).result
        = Except.error PyErr.pipelineFailure := by
  constructor
  · have h : (_prepare_dataset true (fun _ => false) "ds" []
        (Except.error ())).events = [PEv.clearFolderRun, PEv.pipelineRun] := rfl
    rw [h]
    decide
  · rfl

/-- C8 (amended): `clear_mem` is requested after the preparation stage on
every path on which that stage does not raise — it is the last action of
every successful call — but when the rebuild branch is taken and the
extraction pipeline raises, the error propagates without any reclamation
pass. -/
theorem C8_clear_mem (delete_last_prepared_data : Bool)
    (fails : String → Bool) (dataset_dir : String) (listing : List FSNode)
    (pipeline : Except Unit (List FSNode)) :
    (∀ ds, (_prepare_dataset delete_last_prepared_data fails dataset_dir
          listing pipeline).result = Except.ok ds →
        (_prepare_dataset delete_last_prepared_data fails dataset_dir
          listing pipeline).events.getLast? = some PEv.clearMemRun)
    ∧ (∀ u : Unit, pipeline = Except.error u →
        (delete_last_prepared_data = true
          ∨ listing.any (fun e => isShardEntry dataset_dir e) = false) →
        PEv.clearMemRun ∉ (_prepare_dataset delete_last_prepared_data fails
            dataset_dir listing pipeline).events
        ∧ (_prepare_dataset delete_last_prepared_data fails dataset_dir
            listing pipeline).result = Except.error PyErr.pipelineFailure) := by
  cases delete_last_prepared_data <;>
    cases hany : listing.any (fun e => isShardEntry dataset_dir e) <;>
      cases pipeline <;>
        simp [_prepare_dataset, hany]

/-- Witness for C8 (amended): a reused cache ends with the reclamation
call, while a failing rebuild never reaches it. -/
theorem C8_witness :
    (_prepare_dataset false (fun _ => false) "ds" [FSNode.file "a.pt" [1]]
        (Except.ok [])).events.getLast? = some PEv.clearMemRun
    ∧ (PEv.clearMemRun ∉ (_prepare_dataset true (fun _ => false) "d2" []
          (Except.error ())).events
       ∧ (_prepare_dataset true (fun _ => false) "d2" []
          (Except.error ())).result = Except.error PyErr.pipelineFailure) :=
  ⟨(C8_clear_mem false (fun _ => false) "ds" [FSNode.file "a.pt" [1]]
      (Except.ok [])).1 [[1]] rfl,
   (C8_clear_mem true (fun _ => false) "d2" [] (Except.error ())).2 () rfl
     (Or.inl rfl)⟩

/-- C3: every successful `train` run ends by copying the checkpoint path
reported by the model to exactly `output_dir/training_name.pt`: that copy
is the only copy event of the run, and it is the final action, performed
after both preparations, configuration and the blocking model training
completed. -/
theorem C3_publish_checkpoint (delete_last_prepared_data : Bool)
    (fails : String → Bool) (temp_dir output_dir training_name : String)
    (dirX dirY : Option (List FSNode)) (pipeX pipeY : Except Unit (List FSNode))
    (trainOutcome : Except Unit Unit) (best_model_path : String)
    (evs : List TEv)
    (h : train delete_last_prepared_data fails temp_dir output_dir training_name
        dirX dirY pipeX pipeY trainOutcome best_model_path = Except.ok evs) :
    evs.filter TEv.isCopy
      = [TEv.copyFile best_model_path (joinPath output_dir (training_name ++ ".pt"))]
    ∧ evs.getLast?
      = some (TEv.copyFile best_model_path (joinPath output_dir (training_name ++ ".pt"))) := by
  unfold train at h
  split at h
  · exact Except.noConfusion h
  · split at h
    · exact Except.noConfusion h
    · split at h
      · exact Except.noConfusion h
      · simp only [Except.ok.injEq] at h
        subst h
        exact ⟨rfl, rfl⟩

/-- Witness for C3: a concrete successful run with both caches already
valid publishes exactly one checkpoint at out/run.pt. -/
theorem C3_witness :
    ([TEv.setParamsRun, TEv.modelTrainRun,
        TEv.copyFile "best.pt" "out/run.pt"].filter TEv.isCopy
      = [TEv.copyFile "best.pt" (joinPath "out" ("run" ++ ".pt"))])
    ∧ ([TEv.setParamsRun, TEv.modelTrainRun,
        TEv.copyFile "best.pt" "out/run.pt"].getLast?
      = some (TEv.copyFile "best.pt" (joinPath "out" ("run" ++ ".pt")))) :=
  C3_publish_checkpoint false (fun _ => false) "tmp" "out" "run"
    (some [FSNode.file "a.pt" [0]]) (some [FSNode.file "b.pt" [1]])
    (Except.ok []) (Except.ok []) (Except.ok ()) "best.pt"
    [TEv.setParamsRun, TEv.modelTrainRun, TEv.copyFile "best.pt" "out/run.pt"]
    rfl

/-- C6: path resolution of `_get_files`: a directory resolves to exactly
the regular files directly inside it (subdirectories excluded,
non-recursive), order-stably — the result is a sublist of the listing in
listing order — while a non-directory path resolves to the one-element
list holding the path itself. -/
theorem C6_get_files (path : String) (info : PathInfo) :
    (info.isDirFS = true →
      (∀ x, x ∈ _get_files path info
          ↔ ∃ e, e ∈ info.listing ∧ e.isFile = true ∧ x = joinPath path e.name)
      ∧ (_get_files path info).Sublist
          (info.listing.map (fun e => joinPath path e.name)))
    ∧ (info.isDirFS = false → _get_files path info = [path]) := by
  constructor
  · intro hdir
    constructor
    · intro x
      simp only [_get_files, hdir, if_true, List.mem_map, List.mem_filter]
      constructor
      · rintro ⟨e, ⟨he, hf⟩, rfl⟩
        exact ⟨e, he, hf, rfl⟩
      · rintro ⟨e, he, hf, rfl⟩
        exact ⟨e, ⟨he, hf⟩, rfl⟩
    · simpa [_get_files, hdir] using
        List.Sublist.map (fun e => joinPath path e.name)
          (List.filter_sublist info.listing)
  · intro hnot
    simp [_get_files, hnot]

/-- Witness for C6: a directory with files a.wav and b.wav beside a
subdirectory resolves to those two files, and a single file resolves to
itself. -/
theorem C6_witness :
    ("d/a.wav" ∈ _get_files "d"
        { existsFS := true, isDirFS := true,
          listing := [FSNode.file "a.wav" [], FSNode.dir "sub" [],
                      FSNode.file "b.wav" []] })
    ∧ _get_files "c.wav" { existsFS := true, isDirFS := false, listing := [] }
        = ["c.wav"] := by
  constructor
  · exact (((C6_get_files "d"
      { existsFS := true, isDirFS := true,
        listing := [FSNode.file "a.wav" [], FSNode.dir "sub" [],
                    FSNode.file "b.wav" []] }).1 rfl).1 "d/a.wav").mpr
      ⟨FSNode.file "a.wav" [], List.mem_cons_self _ _, rfl, rfl⟩
  · exact (C6_get_files "c.wav"
      { existsFS := true, isDirFS := false, listing := [] }).2 rfl

/-- C7: best-effort clearing: `_clear_folder` over a concatenation of
entries is the concatenation of the per-entry outcomes — a failing entry
is logged and skipped and the remaining entries are still processed — and
every single entry ends with exactly one terminal event for its own path:
`cleared` exactly when nothing of the entry survives, `caught` when its
deletion raised and the exception was swallowed, so no per-entry failure
ever escapes the loop. -/
theorem C7_clear_folder_best_effort (fails : String → Bool) (dirPath : String)
    (xs ys : List FSNode) (e : FSNode) :
    _clear_folder fails dirPath (xs ++ ys)
      = ((_clear_folder fails dirPath xs).1 ++ (_clear_folder fails dirPath ys).1,
         (_clear_folder fails dirPath xs).2 ++ (_clear_folder fails dirPath ys).2)
    ∧ (((_clear_folder fails dirPath [e]).2.getLast?
          = some (CEv.cleared (joinPath dirPath e.name))
        ∨ (_clear_folder fails dirPath [e]).2.getLast?
          = some (CEv.caught (joinPath dirPath e.name)))
      ∧ ((_clear_folder fails dirPath [e]).2.getLast?
          = some (CEv.cleared (joinPath dirPath e.name))
        ↔ (_clear_folder fails dirPath [e]).1 = [])) := by
  constructor
  · induction xs with
    | nil => simp [_clear_folder]
    | cons a as ih =>
      simp [_clear_folder, ih, List.append_assoc]
  · cases e with
    | file n recs =>
      cases hf : fails (joinPath dirPath n) <;>
        simp [_clear_folder, clearEntry, hf, FSNode.name]
    | dir n cs =>
      cases hc : ((_clear_folder fails (joinPath dirPath n) cs).1.isEmpty
          && !(fails (joinPath dirPath n))) <;>
        simp [_clear_folder, clearEntry, hc, FSNode.name, List.getLast?_concat]

/-- C9: constructing the orchestrator with a class name absent from the
module global symbol table fails with the lookup error before any
construction (hence before any filesystem or device work), while a known
name performs exactly one model construction and stores the single
instance, built from the passed device, hyper-parameters and mode. -/
theorem C9_init_registry (globalsKeys : List String) (device : Nat)
    (model_class_name : String) (hyper_params : Nat) (prod_mode : Bool) :
    (model_class_name ∉ globalsKeys →
      voxnot_init globalsKeys device model_class_name hyper_params prod_mode
        = ([], Except.error PyErr.keyError))
    ∧ (model_class_name ∈ globalsKeys →
      voxnot_init globalsKeys device model_class_name hyper_params prod_mode
        = ([InitEv.constructModel model_class_name],
           Except.ok
             { deviceId := device
               model_instance :=
                 { className := model_class_name
                   deviceId := device
                   hyperParamsId := hyper_params
                   prodMode := prod_mode } })) := by
  constructor
  · intro h
    simp [voxnot_init, h]
  · intro h
    simp [voxnot_init, h]

/-- Witness for C9: an unknown class name fails with the lookup error and
no construction, a known one constructs exactly once. -/
theorem C9_witness :
    voxnot_init ["VOXNOTBaseModel"] 3 "NoSuchModel" 7 true
      = ([], Except.error PyErr.keyError)
    ∧ voxnot_init ["VOXNOTBaseModel"] 3 "VOXNOTBaseModel" 7 true
      = ([InitEv.constructModel "VOXNOTBaseModel"],
         Except.ok
           { deviceId := 3
             model_instance :=
               { className := "VOXNOTBaseModel"
                 deviceId := 3
                 hyperParamsId := 7
                 prodMode := true } }) :=
  ⟨(C9_init_registry ["VOXNOTBaseModel"] 3 "NoSuchModel" 7 true).1 (by decide),
   (C9_init_registry ["VOXNOTBaseModel"] 3 "VOXNOTBaseModel" 7 true).2 (by decide)⟩

/-- C10: `_get_files` performs no existence check: any path whose
`os.path.isdir` answer is false — whether a regular file or a path that
does not exist at all — resolves to the one-element list holding the path
itself, and `make_conversation` invoked with such a query path proceeds at
resolution time, converting that path once per resolved model file instead
of failing. -/
theorem C10_no_existence_check (path : String) (ex : Bool) (l : List FSNode)
    (trained_model_path out_path : String) (modelInfo : PathInfo)
    (outIsDir : Bool) :
    _get_files path { existsFS := ex, isDirFS := false, listing := l } = [path]
    ∧ (make_conversation path trained_model_path out_path
          { existsFS := ex, isDirFS := false, listing := l } modelInfo
          outIsDir).map ConvWrite.queryFile
      = List.replicate (_get_files trained_model_path modelInfo).length path := by
  constructor
  · rfl
  · have hq : _get_files path { existsFS := ex, isDirFS := false, listing := l }
        = [path] := rfl
    have key : ∀ (M : List String) (g : String → String),
        ((M.flatMap fun model =>
            [({ modelFile := model, queryFile := path, outFile := g model } :
              ConvWrite)]).map ConvWrite.queryFile)
          = List.replicate M.length path := by
      intro M g
      induction M with
      | nil => rfl
      | cons m ms ih => simp [List.flatMap_cons, ih, List.replicate_succ]
    simp only [make_conversation, hq, List.map_cons, List.map_nil]
    exact key (_get_files trained_model_path modelInfo)
      (fun model =>
        if outIsDir = false then out_path
        else joinPath out_path (basename path ++ "_" ++ basename model ++ ".wav"))

/-- C2 counterexample: models with base names c and b_c and queries with
base names a_b and a — four pairwise-distinct base names — converted into
a directory give only 3 distinct output paths out of 4 writes: the pairs
(a_b, c) and (a, b_c) both write out/a_b_c.wav, so pairwise-distinct base
names do not guarantee M times Q distinctly-named outputs. -/
theorem C2_counterexample :
    ((_get_files "q"
        { existsFS := true, isDirFS := true,
          listing := [FSNode.file "a_b" [], FSNode.file "a" []] }).map basename
      = ["a_b", "a"])
    ∧ ((_get_files "m"
        { existsFS := true, isDirFS := true,
          listing := [FSNode.file "c" [], FSNode.file "b_c" []] }).map basename
      = ["c", "b_c"])
    ∧ (["a_b", "a", "c", "b_c"] : List String).Nodup
    ∧ (make_conversation "q" "m" "out"
        { existsFS := true, isDirFS := true,
          listing := [FSNode.file "a_b" [], FSNode.file "a" []] }
        { existsFS := true, isDirFS := true,
          listing := [FSNode.file "c" [], FSNode.file "b_c" []] } true).length = 4
    ∧ ¬ ((make_conversation "q" "m" "out"
        { existsFS := true, isDirFS := true,
          listing := [FSNode.file "a_b" [], FSNode.file "a" []] }
        { existsFS := true, isDirFS := true,
          listing := [FSNode.file "c" [], FSNode.file "b_c" []] } true).map
          ConvWrite.outFile).Nodup := by
  refine ⟨rfl, rfl, by decide, rfl, ?_⟩
  have h : (make_conversation "q" "m" "out"
      { existsFS := true, isDirFS := true,
        listing := [FSNode.file "a_b" [], FSNode.file "a" []] }
      { existsFS := true, isDirFS := true,
        listing := [FSNode.file "c" [], FSNode.file "b_c" []] } true).map
        ConvWrite.outFile
      = ["out/a_b_c.wav", "out/a_c.wav", "out/a_b_b_c.wav", "out/a_b_c.wav"] := rfl
  rw [h]
  decide

/-- C2 (amended): `make_conversation` performs exactly one write per
(model, query) pair, M times Q writes in total; with a directory output
path every pair writes to
out_path/(queryBaseName)_(modelBaseName).wav, and the M times Q output
paths are pairwise distinct whenever the combined strings
(queryBaseName)_(modelBaseName) are pairwise distinct across pairs —
pairwise-distinct base names alone do not suffice when names contain
underscores; with a non-directory output path every pair writes to the
same single path out_path, so only the last result survives. -/
theorem C2_output_fanout (query_path trained_model_path out_path : String)
    (queryInfo modelInfo : PathInfo) (outIsDir : Bool) :
    (make_conversation query_path trained_model_path out_path queryInfo
        modelInfo outIsDir).length
      = (_get_files trained_model_path modelInfo).length
          * (_get_files query_path queryInfo).length
    ∧ (outIsDir = true →
        (make_conversation query_path trained_model_path out_path queryInfo
            modelInfo outIsDir).map ConvWrite.outFile
          = ((_get_files trained_model_path modelInfo).flatMap fun m =>
              (_get_files query_path queryInfo).map fun q =>
                joinPath out_path (basename q ++ "_" ++ basename m ++ ".wav")))
    ∧ (outIsDir = true →
        ((_get_files trained_model_path modelInfo).flatMap fun m =>
            (_get_files query_path queryInfo).map fun q =>
              basename q ++ "_" ++ basename m).Nodup →
        ((make_conversation query_path trained_model_path out_path queryInfo
            modelInfo outIsDir).map ConvWrite.outFile).Nodup)
    ∧ (outIsDir = false →
        ∀ w ∈ make_conversation query_path trained_model_path out_path
            queryInfo modelInfo outIsDir, w.outFile = out_path) := by
  have hmap : outIsDir = true →
      (make_conversation query_path trained_model_path out_path queryInfo
          modelInfo outIsDir).map ConvWrite.outFile
        = ((_get_files trained_model_path modelInfo).flatMap fun m =>
            (_get_files query_path queryInfo).map fun q =>
              joinPath out_path (basename q ++ "_" ++ basename m ++ ".wav")) := by
    intro hd
    subst hd
    simp only [make_conversation]
    rw [map_flatMap_map]
    simp
  refine ⟨?_, hmap, ?_, ?_⟩
  · exact length_flatMap_map _ _ _
  · intro hd hn
    rw [hmap hd]
    have hrw : ((_get_files trained_model_path modelInfo).flatMap fun m =>
          (_get_files query_path queryInfo).map fun q =>
            joinPath out_path (basename q ++ "_" ++ basename m ++ ".wav"))
        = (((_get_files trained_model_path modelInfo).flatMap fun m =>
            (_get_files query_path queryInfo).map fun q =>
              basename q ++ "_" ++ basename m).map
            (fun s => (out_path ++ "/") ++ s ++ ".wav")) := by
      rw [map_flatMap_map]
      refine congrArg (List.flatMap (_get_files trained_model_path modelInfo))
        (funext fun m => ?_)
      refine congrArg (fun f => List.map f (_get_files query_path queryInfo))
        (funext fun q => ?_)
      apply String.ext
      simp [joinPath, sdata_append, List.append_assoc]
    rw [hrw]
    exact List.Nodup.map (surround_injective (out_path ++ "/") ".wav") hn
  · intro hd w hw
    simp only [make_conversation, List.mem_flatMap, List.mem_map] at hw
    obtain ⟨m, -, q, -, rfl⟩ := hw
    simp [hd]

/-- Witness for C2 (amended): two models and three queries with
underscore-free distinct base names, converted into a directory, give
exactly 6 writes with pairwise-distinct output paths; with a plain file
output path every write targets that path. -/
theorem C2_witness :
    ((make_conversation "q" "m" "o"
        { existsFS := true, isDirFS := true,
          listing := [FSNode.file "q1" [], FSNode.file "q2" [],
                      FSNode.file "q3" []] }
        { existsFS := true, isDirFS := true,
          listing := [FSNode.file "m1" [], FSNode.file "m2" []] } true).length
      = 2 * 3)
    ∧ ((make_conversation "q" "m" "o"
        { existsFS := true, isDirFS := true,
          listing := [FSNode.file "q1" [], FSNode.file "q2" [],
                      FSNode.file "q3" []] }
        { existsFS := true, isDirFS := true,
          listing := [FSNode.file "m1" [], FSNode.file "m2" []] } true).map
          ConvWrite.outFile).Nodup
    ∧ (∀ w ∈ make_conversation "q" "m" "single.wav"
        { existsFS := true, isDirFS := true,
          listing := [FSNode.file "q1" [], FSNode.file "q2" []] }
        { existsFS := true, isDirFS := true,
          listing := [FSNode.file "m1" []] } false, w.outFile = "single.wav") := by
  refine ⟨?_, ?_, ?_⟩
  · exact (C2_output_fanout "q" "m" "o"
      { existsFS := true, isDirFS := true,
        listing := [FSNode.file "q1" [], FSNode.file "q2" [],
                    FSNode.file "q3" []] }
      { existsFS := true, isDirFS := true,
        listing := [FSNode.file "m1" [], FSNode.file "m2" []] } true).1
  · exact (C2_output_fanout "q" "m" "o"
      { existsFS := true, isDirFS := true,
        listing := [FSNode.file "q1" [], FSNode.file "q2" [],
                    FSNode.file "q3" []] }
      { existsFS := true, isDirFS := true,
        listing := [FSNode.file "m1" [], FSNode.file "m2" []] } true).2.2.1
      rfl (by decide)
  · exact (C2_output_fanout "q" "m" "single.wav"
      { existsFS := true, isDirFS := true,
        listing := [FSNode.file "q1" [], FSNode.file "q2" []] }
      { existsFS := true, isDirFS := true,
        listing := [FSNode.file "m1" []] } false).2.2.2 rfl
